import Mathlib

/-!
Verification of the conversational registration system ("agentic_voice").

This file gives a shallow embedding of the repository's core:

* `src/agents/perception_agent.py` — regex-based entity extraction
  (`PerceptionAgent.extract_entities`), embedded via a small backtracking
  regular-expression engine (`Rx` / `matchRx` / `reSearch`) that mirrors
  Python `re.search` semantics (leftmost match, left-biased alternation,
  greedy/lazy repetition, single capturing group, negative look-around,
  word boundaries, `^`/`$` anchors with `$` also matching before a final
  newline, `.` excluding newline).
* `src/agents/action_agent.py` — profile validation, registration and
  response rendering.
* `src/db.py` / `src/agents/memory_agent.py` — the user table with its
  conditional duplicate-email check (`create_user` / `store_user`); fresh
  uuid-based ids are modelled by a counter, and the wall-clock
  `created_at` column is omitted.
* `src/agents/orchestration_agent.py` / `src/registration.py` — the
  LangGraph registration workflow.  The graph's declared nodes and edges
  are embedded as `stepNode` and executed by the fueled interpreter
  `runGraphE` with LangGraph's default recursion limit of 25 super-steps;
  node updates propagate as full states along the declared edges, and
  exhausting the limit corresponds to LangGraph raising
  `GraphRecursionError`, which `process_message` catches (`processTurn`).
  The optional LLM services (Ollama / mock LLM) are modelled as absent:
  `PerceptionAgent.extract_entities_with_llm` then contributes nothing and
  the deterministic paths are taken, matching the code's fallback
  behaviour.  Error-handling `except:` branches for exceptions that the
  pure model cannot raise are not represented.
-/

/-! ## Python string primitives -/

/-- Python `str.isspace` characters relevant to `\s`, `str.strip()` and
`str.split()` (ASCII whitespace). -/
def pyIsSpace (c : Char) : Bool :=
  c == ' ' || c == '\t' || c == '\n' || c == '\r' || c == '\x0b' || c == '\x0c'

/-- Drop leading whitespace from a character list. -/
def dropSpaces : List Char → List Char
  | [] => []
  | c :: t => if pyIsSpace c then dropSpaces t else c :: t

/-- Python `str.strip()`. -/
def pyStrip (s : String) : String :=
  ((dropSpaces ((dropSpaces s.toList).reverse)).reverse).asString

/-- Python `str.lower()` (ASCII). -/
def pyLower (s : String) : String :=
  (s.toList.map Char.toLower).asString

/-- Split a character list on whitespace, dropping empty pieces: the
behaviour of Python `str.split()` with no argument. -/
def pySplitChars (cur : List Char) : List Char → List String
  | [] => if cur.isEmpty then [] else [cur.reverse.asString]
  | c :: t =>
    if pyIsSpace c then
      if cur.isEmpty then pySplitChars [] t
      else cur.reverse.asString :: pySplitChars [] t
    else pySplitChars (c :: cur) t

/-- Python `str.split()` with no argument. -/
def pySplit (s : String) : List String := pySplitChars [] s.toList

/-- Does list `h` start with list `n`? -/
def listStartsWith : List Char → List Char → Bool
  | _, [] => true
  | [], _ :: _ => false
  | c :: cs, d :: ds => c == d && listStartsWith cs ds

/-- Is `n` a contiguous sub-list of `h`? -/
def listHasSub (n : List Char) : List Char → Bool
  | [] => listStartsWith [] n
  | c :: t => listStartsWith (c :: t) n || listHasSub n t

/-- Python `needle in hay` on strings (substring containment). -/
def pyIn (needle hay : String) : Bool := listHasSub needle.toList hay.toList

/-! ## Insertion-ordered string dictionaries (Python `dict`) -/

/-- Lookup in an insertion-ordered association list. -/
def dictGet {α : Type} (d : List (String × α)) (k : String) : Option α :=
  match d with
  | [] => none
  | (k', v) :: t => if k' == k then some v else dictGet t k

/-- Update/insert preserving Python `dict` insertion order: existing keys
keep their position, new keys are appended. -/
def dictSet {α : Type} (d : List (String × α)) (k : String) (v : α) :
    List (String × α) :=
  match d with
  | [] => [(k, v)]
  | (k', v') :: t => if k' == k then (k, v) :: t else (k', v') :: dictSet t k v

/-! ## Regular-expression engine

Patterns are transcribed from the Python `re` literals in
`src/agents/perception_agent.py`.  `\w` is modelled as ASCII
alphanumeric-or-underscore (all inputs in this development are ASCII). -/

/-- Python `\w`. -/
def isWordChar (c : Char) : Bool := c.isAlphanum || c == '_'

/-- Regular-expression syntax.  `cls` is a one-character class, `grp` is
the (single) capturing group, `nlb`/`nla` are negative look-behind/ahead
on one character, `wb` is `\b`, `bol`/`eol` are `^`/`$`. -/
inductive Rx where
  | eps : Rx
  | cls : (Char → Bool) → Rx
  | cat : Rx → Rx → Rx
  | alt : Rx → Rx → Rx
  | starG : Rx → Rx
  | starL : Rx → Rx
  | grp : Rx → Rx
  | nlb : (Char → Bool) → Rx
  | nla : (Char → Bool) → Rx
  | wb : Rx
  | bol : Rx
  | eol : Rx

/-- A match candidate: consumed prefix (reversed), remaining suffix, and
the capture of group 1 if the group participated. -/
abbrev MRes := List Char × List Char × Option (List Char)

/-- Backtracking matcher.  Results are listed in Python `re` preference
order: alternation is left-biased, `starG` prefers more iterations
(greedy), `starL` prefers fewer (lazy).  Repeated sub-patterns must
consume input on each iteration (all starred sub-patterns in the source
are single-character classes, which always consume).  `fuel` bounds
recursion depth and is chosen large enough to be invisible. -/
def matchRx : Nat → Rx → List Char → List Char → List MRes
  | 0, _, _, _ => []
  | Nat.succ fuel, rx, prev, s =>
    match rx with
    | .eps => [(prev, s, none)]
    | .cls p =>
      match s with
      | [] => []
      | c :: rest => if p c then [(c :: prev, rest, none)] else []
    | .cat a b =>
      (matchRx fuel a prev s).flatMap (fun r =>
        (matchRx fuel b r.1 r.2.1).map
          (fun r2 => (r2.1, r2.2.1, r.2.2.orElse (fun _ => r2.2.2))))
    | .alt a b => matchRx fuel a prev s ++ matchRx fuel b prev s
    | .starG r =>
      ((matchRx fuel r prev s).filter (fun t => t.2.1.length < s.length)).flatMap
        (fun t => (matchRx fuel (.starG r) t.1 t.2.1).map
          (fun u => (u.1, u.2.1, none)))
      ++ [(prev, s, none)]
    | .starL r =>
      (prev, s, none) ::
      ((matchRx fuel r prev s).filter (fun t => t.2.1.length < s.length)).flatMap
        (fun t => (matchRx fuel (.starL r) t.1 t.2.1).map
          (fun u => (u.1, u.2.1, none)))
    | .grp r =>
      (matchRx fuel r prev s).map
        (fun t => (t.1, t.2.1, some (s.take (s.length - t.2.1.length))))
    | .nlb p =>
      match prev with
      | [] => [(prev, s, none)]
      | c :: _ => if p c then [] else [(prev, s, none)]
    | .nla p =>
      match s with
      | [] => [(prev, s, none)]
      | c :: _ => if p c then [] else [(prev, s, none)]
    | .wb =>
      let pw := match prev with | [] => false | c :: _ => isWordChar c
      let nw := match s with | [] => false | c :: _ => isWordChar c
      if pw != nw then [(prev, s, none)] else []
    | .bol => if prev.isEmpty then [(prev, s, none)] else []
    | .eol => if s.isEmpty || s == ['\n'] then [(prev, s, none)] else []

/-- Depth bound for `matchRx`; far larger than any derivation depth
reachable on the message lengths considered here. -/
def rxFuel : Nat := 1000

/-- Try a match anchored at the current position; return the matched text
(group 0) and the capture (group 1). -/
def searchStep (rx : Rx) (prev s : List Char) :
    Option (List Char × Option (List Char)) :=
  match matchRx rxFuel rx prev s with
  | [] => none
  | t :: _ => some (s.take (s.length - t.2.1.length), t.2.2)

/-- Scan left to right for the first position with a match: Python
`re.search`. -/
def searchGo (rx : Rx) : List Char → List Char → Option (String × Option String)
  | prev, [] =>
    (searchStep rx prev []).map (fun t => (t.1.asString, t.2.map List.asString))
  | prev, c :: rest =>
    match searchStep rx prev (c :: rest) with
    | some t => some (t.1.asString, t.2.map List.asString)
    | none => searchGo rx (c :: prev) rest

/-- Python `re.search(pattern, text)`, returning `(group0, group1)`. -/
def reSearch (rx : Rx) (text : String) : Option (String × Option String) :=
  searchGo rx [] text.toList

/-- One-character literal. -/
def Rx.ch (c : Char) : Rx := .cls (fun d => d == c)

/-- Case-sensitive literal string. -/
def Rx.lit (s : String) : Rx :=
  s.toList.foldr (fun c acc => Rx.cat (Rx.ch c) acc) Rx.eps

/-- Case-insensitive literal string (for `(?i)` patterns). -/
def Rx.litCI (s : String) : Rx :=
  s.toList.foldr
    (fun c acc => Rx.cat (Rx.cls (fun d => d.toLower == c.toLower)) acc) Rx.eps

/-- Left-biased alternation of a non-empty list, in order. -/
def Rx.alts : List Rx → Rx
  | [] => Rx.eps
  | [r] => r
  | r :: t => Rx.alt r (Rx.alts t)

/-- Greedy `r?`. -/
def Rx.opt (r : Rx) : Rx := .alt r .eps

/-- Greedy `r+`. -/
def Rx.plus (r : Rx) : Rx := .cat r (.starG r)

/-- Lazy `r+?`. -/
def Rx.plusL (r : Rx) : Rx := .cat r (.starL r)

/-- `r` repeated exactly `n` times. -/
def Rx.repN (r : Rx) : Nat → Rx
  | 0 => .eps
  | n + 1 => .cat r (Rx.repN r n)

/-- Greedy `r{n,}`. -/
def Rx.atLeast (n : Nat) (r : Rx) : Rx := .cat (Rx.repN r n) (.starG r)

/-! ## Character classes from `perception_agent.py` -/

/-- `[A-Za-z\s\-'\.]`. -/
def nameCls (c : Char) : Bool :=
  c.isAlpha || pyIsSpace c || c == '-' || c == '\'' || c == '.'

/-- `[a-zA-Z0-9_.+-]`. -/
def emailLocalCls (c : Char) : Bool :=
  c.isAlphanum || c == '_' || c == '.' || c == '+' || c == '-'

/-- `[a-zA-Z0-9-]`. -/
def emailDomCls (c : Char) : Bool := c.isAlphanum || c == '-'

/-- `[a-zA-Z0-9-.]`. -/
def emailTldCls (c : Char) : Bool := c.isAlphanum || c == '-' || c == '.'

/-- `[0-9\s\-\+\(\)]`. -/
def phoneCls (c : Char) : Bool :=
  c.isDigit || pyIsSpace c || c == '-' || c == '+' || c == '(' || c == ')'

/-- `[\s\-\(\)0-9]`. -/
def phoneTailCls (c : Char) : Bool :=
  pyIsSpace c || c == '-' || c == '(' || c == ')' || c.isDigit

/-- `.` (any character but newline). -/
def dotCls (c : Char) : Bool := c != '\n'

/-- `[\w\s]`. -/
def wordSpaceCls (c : Char) : Bool := isWordChar c || pyIsSpace c

/-- `[\w\s\.,]`. -/
def addrBodyCls (c : Char) : Bool :=
  isWordChar c || pyIsSpace c || c == '.' || c == ','

/-- `[A-Za-z0-9\s\-'\.\!\@\#\$\%\^\&\*\(\)]`. -/
def pwCls (c : Char) : Bool :=
  c.isAlphanum || pyIsSpace c || c == '-' || c == '\'' || c == '.' ||
  c == '!' || c == '@' || c == '#' || c == '$' || c == '%' || c == '^' ||
  c == '&' || c == '*' || c == '(' || c == ')'

/-- `[A-Za-z0-9\!\@\#\$\%\^\&\*\(\)]` (standalone-password shape). -/
def pwAloneCls (c : Char) : Bool :=
  c.isAlphanum || c == '!' || c == '@' || c == '#' || c == '$' || c == '%' ||
  c == '^' || c == '&' || c == '*' || c == '(' || c == ')'

/-- `\s` as a pattern. -/
def wsCh : Rx := .cls pyIsSpace

/-- `\s+`. -/
def wsPlus : Rx := Rx.plus wsCh

/-- `\s*`. -/
def wsStar : Rx := .starG wsCh

/-! ## Name patterns -/

/-- `(?:,|\.|$|\s+and)`. -/
def nameTerm : Rx :=
  Rx.alts [Rx.ch ',', Rx.ch '.', .eol, .cat wsPlus (Rx.litCI "and")]

/-- `(?:,|\.|$|\s+and|\s+with)`. -/
def nameTermW : Rx :=
  Rx.alts [Rx.ch ',', Rx.ch '.', .eol, .cat wsPlus (Rx.litCI "and"),
           .cat wsPlus (Rx.litCI "with")]

/-- `(?i)name\s+(?:is\s+)?([A-Za-z\s\-'\.]+)(?:,|\.|$|\s+and)`. -/
def namePat1 : Rx :=
  .cat (Rx.litCI "name") (.cat wsPlus (.cat (Rx.opt (.cat (Rx.litCI "is") wsPlus))
    (.cat (.grp (Rx.plus (.cls nameCls))) nameTerm)))

/-- `(?i)(?:i am|i'm|this is)\s+([A-Za-z\s\-'\.]{2,})(?:,|\.|$|\s+and)`. -/
def namePat2 : Rx :=
  .cat (Rx.alts [Rx.litCI "i am", Rx.litCI "i'm", Rx.litCI "this is"])
    (.cat wsPlus (.cat (.grp (Rx.atLeast 2 (.cls nameCls))) nameTerm))

/-- `(?i)register\s+(?:for|a)?\s*([A-Za-z\s\-'\.]{2,})(?:,|\.|$|\s+and|\s+with)`. -/
def namePat3 : Rx :=
  .cat (Rx.litCI "register") (.cat wsPlus
    (.cat (Rx.opt (Rx.alts [Rx.litCI "for", Rx.litCI "a"]))
      (.cat wsStar (.cat (.grp (Rx.atLeast 2 (.cls nameCls))) nameTermW))))

/-- `(?i)register\s+([A-Za-z\s\-'\.]{2,})(?:,|\.|$|\s+and|\s+with)`. -/
def namePat4 : Rx :=
  .cat (Rx.litCI "register")
    (.cat wsPlus (.cat (.grp (Rx.atLeast 2 (.cls nameCls))) nameTermW))

/-- `(?i)call\s+me\s+([A-Za-z\s\-'\.]{2,})(?:,|\.|$|\s+and)`. -/
def namePat5 : Rx :=
  .cat (Rx.litCI "call") (.cat wsPlus (.cat (Rx.litCI "me")
    (.cat wsPlus (.cat (.grp (Rx.atLeast 2 (.cls nameCls))) nameTerm))))

/-- `(?i)I(?:'m| am)?\s+([A-Za-z\s\-'\.]{2,})(?:,|\.|$|\s+and)`. -/
def namePat6 : Rx :=
  .cat (Rx.litCI "i") (.cat (Rx.opt (Rx.alts [Rx.litCI "'m", Rx.litCI " am"]))
    (.cat wsPlus (.cat (.grp (Rx.atLeast 2 (.cls nameCls))) nameTerm)))

/-- `^([A-Za-z\s\-'\.]{2,})(?:,|\.|$|\s+and)`. -/
def namePat7 : Rx :=
  .cat .bol (.cat (.grp (Rx.atLeast 2 (.cls nameCls))) nameTerm)

/-- The ordered name pattern list. -/
def namePatterns : List Rx :=
  [namePat1, namePat2, namePat3, namePat4, namePat5, namePat6, namePat7]

/-- The `non_name_words` deny list. -/
def nonNameWords : List String :=
  ["user", "account", "profile", "please", "would", "could", "want", "like",
   "hoping", "trying", "looking", "ready", "here", "interested", "need",
   "should"]

/-- `any(word == name.lower() or word in name.lower().split() for word in non_name_words)`. -/
def isBadName (name : String) : Bool :=
  nonNameWords.any (fun w => w == pyLower name || (pySplit (pyLower name)).contains w)

/-! ## Email patterns -/

/-- `[a-zA-Z0-9_.+-]+@[a-zA-Z0-9-]+\.[a-zA-Z0-9-.]+` (the shared e-mail core). -/
def emailCore : Rx :=
  .cat (Rx.plus (.cls emailLocalCls)) (.cat (Rx.ch '@')
    (.cat (Rx.plus (.cls emailDomCls))
      (.cat (Rx.ch '.') (Rx.plus (.cls emailTldCls)))))

/-- `([a-zA-Z0-9_.+-]+@[a-zA-Z0-9-]+\.[a-zA-Z0-9-.]+)`. -/
def emailPat1 : Rx := .grp emailCore

/-- `(?i)email\s+(?:is|:)?\s*(...)`. -/
def emailPat2 : Rx :=
  .cat (Rx.litCI "email") (.cat wsPlus
    (.cat (Rx.opt (Rx.alts [Rx.litCI "is", Rx.ch ':'])) (.cat wsStar (.grp emailCore))))

/-- `(?i)(?:contact|reach|mail)\s+(?:me|at)\s+(?:at|via)?\s*(...)`. -/
def emailPat3 : Rx :=
  .cat (Rx.alts [Rx.litCI "contact", Rx.litCI "reach", Rx.litCI "mail"])
    (.cat wsPlus (.cat (Rx.alts [Rx.litCI "me", Rx.litCI "at"])
      (.cat wsPlus (.cat (Rx.opt (Rx.alts [Rx.litCI "at", Rx.litCI "via"]))
        (.cat wsStar (.grp emailCore))))))

/-- The ordered e-mail pattern list. -/
def emailPatterns : List Rx := [emailPat1, emailPat2, emailPat3]

/-! ## Phone patterns -/

/-- `(?i)phone\s+(?:number|#)?\s*(?:is|:)?\s*([0-9\s\-\+\(\)]{7,})`. -/
def phonePat1 : Rx :=
  .cat (Rx.litCI "phone") (.cat wsPlus
    (.cat (Rx.opt (Rx.alts [Rx.litCI "number", Rx.ch '#']))
      (.cat wsStar (.cat (Rx.opt (Rx.alts [Rx.litCI "is", Rx.ch ':']))
        (.cat wsStar (.grp (Rx.atLeast 7 (.cls phoneCls))))))))

/-- `(?<!\w)(\+?[0-9][\s\-\(\)0-9]{6,})(?!\w)`. -/
def phonePat2 : Rx :=
  .cat (.nlb isWordChar) (.cat (.grp (.cat (Rx.opt (Rx.ch '+'))
    (.cat (.cls Char.isDigit) (Rx.atLeast 6 (.cls phoneTailCls)))))
    (.nla isWordChar))

/-- `(?i)(?:call|text|reach|contact)\s+(?:me|at)\s+(?:at|on)?\s*(\+?[0-9][\s\-\(\)0-9]{6,})`. -/
def phonePat3 : Rx :=
  .cat (Rx.alts [Rx.litCI "call", Rx.litCI "text", Rx.litCI "reach", Rx.litCI "contact"])
    (.cat wsPlus (.cat (Rx.alts [Rx.litCI "me", Rx.litCI "at"])
      (.cat wsPlus (.cat (Rx.opt (Rx.alts [Rx.litCI "at", Rx.litCI "on"]))
        (.cat wsStar (.grp (.cat (Rx.opt (Rx.ch '+'))
          (.cat (.cls Char.isDigit) (Rx.atLeast 6 (.cls phoneTailCls))))))))))

/-- `(?i)(?:my|the)\s+number\s+(?:is|:)?\s*([0-9\s\-\+\(\)]{7,})`. -/
def phonePat4 : Rx :=
  .cat (Rx.alts [Rx.litCI "my", Rx.litCI "the"]) (.cat wsPlus
    (.cat (Rx.litCI "number") (.cat wsPlus
      (.cat (Rx.opt (Rx.alts [Rx.litCI "is", Rx.ch ':']))
        (.cat wsStar (.grp (Rx.atLeast 7 (.cls phoneCls))))))))

/-- The ordered phone pattern list. -/
def phonePatterns : List Rx := [phonePat1, phonePat2, phonePat3, phonePat4]

/-! ## Address patterns -/

/-- `(?:\.|$|,\s*(?:phone|email|password|my))`. -/
def addrTerm : Rx :=
  Rx.alts [Rx.ch '.', .eol,
    .cat (Rx.ch ',') (.cat wsStar
      (Rx.alts [Rx.litCI "phone", Rx.litCI "email", Rx.litCI "password", Rx.litCI "my"]))]

/-- `(?i)address\s+(?:is|:)?\s*(.+?)(...)`. -/
def addrPat1 : Rx :=
  .cat (Rx.litCI "address") (.cat wsPlus
    (.cat (Rx.opt (Rx.alts [Rx.litCI "is", Rx.ch ':']))
      (.cat wsStar (.cat (.grp (Rx.plusL (.cls dotCls))) addrTerm))))

/-- `(?i)(?:live|stay|reside)\s+(?:at|in|on)\s+(.+?)(...)`. -/
def addrPat2 : Rx :=
  .cat (Rx.alts [Rx.litCI "live", Rx.litCI "stay", Rx.litCI "reside"])
    (.cat wsPlus (.cat (Rx.alts [Rx.litCI "at", Rx.litCI "in", Rx.litCI "on"])
      (.cat wsPlus (.cat (.grp (Rx.plusL (.cls dotCls))) addrTerm))))

/-- `(?i)(?:located|based)\s+(?:at|in|on)\s+(.+?)(...)`. -/
def addrPat3 : Rx :=
  .cat (Rx.alts [Rx.litCI "located", Rx.litCI "based"])
    (.cat wsPlus (.cat (Rx.alts [Rx.litCI "at", Rx.litCI "in", Rx.litCI "on"])
      (.cat wsPlus (.cat (.grp (Rx.plusL (.cls dotCls))) addrTerm))))

/-- `(?i)(?:home|location)\s+(?:is|at|in|:)?\s*(.+?)(...)`. -/
def addrPat4 : Rx :=
  .cat (Rx.alts [Rx.litCI "home", Rx.litCI "location"])
    (.cat wsPlus (.cat (Rx.opt (Rx.alts [Rx.litCI "is", Rx.litCI "at", Rx.litCI "in", Rx.ch ':']))
      (.cat wsStar (.cat (.grp (Rx.plusL (.cls dotCls))) addrTerm))))

/-- `(?i)(?:from)\s+(.+?)(...)`. -/
def addrPat5 : Rx :=
  .cat (Rx.litCI "from")
    (.cat wsPlus (.cat (.grp (Rx.plusL (.cls dotCls))) addrTerm))

/-- The ordered labelled-address pattern list. -/
def addressPatterns : List Rx := [addrPat1, addrPat2, addrPat3, addrPat4, addrPat5]

/-- The street-keyword list, in order. -/
def addressKeywords : List String :=
  ["street", "avenue", "road", "lane", "drive", "boulevard", "court", "plaza",
   "parkway", "place", "way", "circle", "highway", "route", "building",
   "apartment"]

/-- `(?i)(?:[\w\s]+\s+<keyword>.+?)(?:\.|$|,\s*(?:phone|email|password|my))`
(whole match, group 0, is used). -/
def addrKwPat (kw : String) : Rx :=
  .cat (Rx.plus (.cls wordSpaceCls)) (.cat wsPlus
    (.cat (Rx.litCI kw) (.cat (Rx.plusL (.cls dotCls)) addrTerm)))

/-- Street-type suffix alternation of the final address pattern. -/
def streetTypeAlt : Rx :=
  Rx.alts (["street", "st", "avenue", "ave", "road", "rd", "lane", "ln",
            "drive", "dr", "boulevard", "blvd", "court", "ct", "circle",
            "cir", "plaza", "plz", "parkway", "pkwy", "highway", "hwy",
            "place", "pl", "way"].map Rx.litCI)

/-- `\b\d+\s+[\w\s\.,]+(?:street|st|...|way)\b` with `re.IGNORECASE`
(whole match, group 0, is used). -/
def addrFinalPat : Rx :=
  .cat .wb (.cat (Rx.plus (.cls Char.isDigit)) (.cat wsPlus
    (.cat (Rx.plus (.cls addrBodyCls)) (.cat streetTypeAlt .wb))))

/-! ## Password patterns -/

/-- `(?:,|\.|$)`. -/
def pwTerm : Rx := Rx.alts [Rx.ch ',', Rx.ch '.', .eol]

/-- `(?i)password\s+(?:is|:)?\s*([A-Za-z0-9\s\-'\.\!\@\#\$\%\^\&\*\(\)]{6,})(?:,|\.|$)`. -/
def pwPat1 : Rx :=
  .cat (Rx.litCI "password") (.cat wsPlus
    (.cat (Rx.opt (Rx.alts [Rx.litCI "is", Rx.ch ':']))
      (.cat wsStar (.cat (.grp (Rx.atLeast 6 (.cls pwCls))) pwTerm))))

/-- `(?i)(?:use|set|my)\s+password\s+(?:as|to|:)?\s*(...{6,})(?:,|\.|$)`. -/
def pwPat2 : Rx :=
  .cat (Rx.alts [Rx.litCI "use", Rx.litCI "set", Rx.litCI "my"])
    (.cat wsPlus (.cat (Rx.litCI "password") (.cat wsPlus
      (.cat (Rx.opt (Rx.alts [Rx.litCI "as", Rx.litCI "to", Rx.ch ':']))
        (.cat wsStar (.cat (.grp (Rx.atLeast 6 (.cls pwCls))) pwTerm))))))

/-- `(?i)(?:login|signin|sign in)\s+(?:with|using)\s+(?:password|pwd)?\s*(...{6,})(?:,|\.|$)`. -/
def pwPat3 : Rx :=
  .cat (Rx.alts [Rx.litCI "login", Rx.litCI "signin", Rx.litCI "sign in"])
    (.cat wsPlus (.cat (Rx.alts [Rx.litCI "with", Rx.litCI "using"])
      (.cat wsPlus (.cat (Rx.opt (Rx.alts [Rx.litCI "password", Rx.litCI "pwd"]))
        (.cat wsStar (.cat (.grp (Rx.atLeast 6 (.cls pwCls))) pwTerm))))))

/-- The ordered labelled-password pattern list. -/
def pwPatterns : List Rx := [pwPat1, pwPat2, pwPat3]

/-! ## The entity extractor (`PerceptionAgent.extract_entities`) -/

/-- First value of `f` over a list, mirroring a `for`-loop with `break`. -/
def firstSome {α β : Type} (f : α → Option β) : List α → Option β
  | [] => none
  | a :: t =>
    match f a with
    | some b => some b
    | none => firstSome f t

/-- The name-pattern loop: a pattern whose stripped capture passes the
deny-list filter wins; a deny-listed capture falls through to the next
pattern. -/
def extractNameLoop (text : String) : Option String :=
  firstSome (fun pat =>
    match reSearch pat text with
    | some (_, some g) =>
      let name := pyStrip g
      if isBadName name then none else some name
    | _ => none) namePatterns

/-- The comma-list heuristic: a first comma-separated segment of at most
three purely `[A-Za-z\s\-'\.]` words that is not deny-listed is taken as
the name.  `re.match(r'^[A-Za-z\s\-\'\.]+$', s)` on an already-stripped
string is: non-empty and every character in the class. -/
def commaNameHeuristic (text : String) : Option String :=
  let parts := (text.splitOn ",").map pyStrip
  if pyIn "," text && parts.length ≥ 2 then
    let firstPart := parts.headD ""
    if (pySplit firstPart).length ≤ 3 && firstPart ≠ "" &&
        firstPart.toList.all nameCls then
      if isBadName firstPart then none else some firstPart
    else none
  else none

/-- Name extraction: the pattern loop, then the comma heuristic. -/
def extractName (text : String) : Option String :=
  match extractNameLoop text with
  | some n => some n
  | none => commaNameHeuristic text

/-- E-mail extraction: first matching pattern, group 1, unstripped. -/
def extractEmail (text : String) : Option String :=
  firstSome (fun pat =>
    match reSearch pat text with
    | some (_, some g) => some g
    | _ => none) emailPatterns

/-- Phone extraction: stripped group 1, cleaned by
`re.sub(r'[^\d\+\-\(\)]', '', ·)`, kept only with at least 7 digits;
otherwise the loop continues with the next pattern. -/
def extractPhone (text : String) : Option String :=
  firstSome (fun pat =>
    match reSearch pat text with
    | some (_, some g) =>
      let phone := pyStrip g
      let cleaned := (phone.toList.filter (fun c =>
        c.isDigit || c == '+' || c == '-' || c == '(' || c == ')')).asString
      if (cleaned.toList.filter Char.isDigit).length ≥ 7 then some cleaned
      else none
    | _ => none) phonePatterns

/-- Labelled-address loop: stripped group 1, kept only when longer than 5
characters and containing a digit. -/
def extractAddressLoop (text : String) : Option String :=
  firstSome (fun pat =>
    match reSearch pat text with
    | some (_, some g) =>
      let address := pyStrip g
      if address.length > 5 && address.toList.any Char.isDigit then some address
      else none
    | _ => none) addressPatterns

/-- Street-keyword loop: stripped whole match, kept when longer than 5
characters. -/
def extractAddressKw (text : String) : Option String :=
  firstSome (fun kw =>
    match reSearch (addrKwPat kw) text with
    | some (m0, _) =>
      let address := pyStrip m0
      if address.length > 5 then some address else none
    | none => none) addressKeywords

/-- Address extraction: labelled patterns, then street keywords, then the
final `\b\d+ ... <street-type>\b` pattern (stripped whole match, no
length filter). -/
def extractAddress (text : String) : Option String :=
  match extractAddressLoop text with
  | some a => some a
  | none =>
    match extractAddressKw text with
    | some a => some a
    | none =>
      match reSearch addrFinalPat text with
      | some (m0, _) => some (pyStrip m0)
      | none => none

/-- Labelled-password extraction: first matching pattern, stripped group 1. -/
def extractPassword (text : String) : Option String :=
  firstSome (fun pat =>
    match reSearch pat text with
    | some (_, some g) => some (pyStrip g)
    | _ => none) pwPatterns

/-- `re.match(r'^[A-Za-z0-9\!\@\#\$\%\^\&\*\(\)]{6,20}$', s)` on the
already-stripped message: length between 6 and 20 with every character in
the class. -/
def isPwShaped (s : String) : Bool :=
  6 ≤ s.length && s.length ≤ 20 && s.toList.all pwAloneCls

/-- The extracted-entity record (`entities` dict); keys are created in the
source order name, email, phone, address, password. -/
structure Entities where
  name : Option String
  email : Option String
  phone : Option String
  address : Option String
  password : Option String
deriving DecidableEq, Repr

/-- Number of extracted entities (`len(entities)`). -/
def Entities.count (e : Entities) : Nat :=
  (if e.name.isSome then 1 else 0) + (if e.email.isSome then 1 else 0) +
  (if e.phone.isSome then 1 else 0) + (if e.address.isSome then 1 else 0) +
  (if e.password.isSome then 1 else 0)

/-- `PerceptionAgent.extract_entities`: the five field extractions plus
the standalone-password heuristic, which fires only when no labelled
password and no other entity was found and the entire stripped message is
password-shaped. -/
def extract_entities (text : String) : Entities :=
  let name := extractName text
  let email := extractEmail text
  let phone := extractPhone text
  let address := extractAddress text
  let pw := extractPassword text
  let password :=
    match pw with
    | some p => some p
    | none =>
      if name.isNone && email.isNone && phone.isNone && address.isNone &&
          isPwShaped (pyStrip text) then
        some (pyStrip text)
      else none
  ⟨name, email, phone, address, password⟩

/-! ## Registration data model (`orchestration_agent.py` / `registration.py`) -/

/-- `RegistrationStatus`.  `started` embeds the source's INITIALIZED
member (its string value is produced by `RegStatus.value`). -/
inductive RegStatus where
  | started
  | gatheringInfo
  | passwordNeeded
  | confirming
  | completed
  | failed
deriving DecidableEq, Repr

/-- The `str`-enum value of each status. -/
def RegStatus.value : RegStatus → String
  | .started => "initialized"
  | .gatheringInfo => "gathering_info"
  | .passwordNeeded => "password_needed"
  | .confirming => "confirming"
  | .completed => "completed"
  | .failed => "failed"

/-- `RegistrationState`: the TypedDict threaded through the graph.
`profile` is the `user_profile` dict (string values). -/
structure RegState where
  sessionId : String
  profile : List (String × String)
  status : RegStatus
  missingFields : List String
  password : String
  currentMessage : String
  systemMessage : String
deriving DecidableEq, Repr

/-- The fixed required-field list. -/
def requiredFields : List String := ["name", "email", "phone", "address"]

/-! ## The user table (`SimpleDB.create_user` / `MemoryAgent.store_user`;
the two are line-for-line identical and share this embedding) -/

/-- A row of the `users` table.  `email` is `NULL` when the submitted
record lacks the key.  The wall-clock `created_at` column is omitted. -/
structure UserRec where
  userId : String
  name : Option String
  email : Option String
  phone : Option String
  address : Option String
  passwordHash : String
deriving DecidableEq, Repr

/-- The user table plus a counter modelling `uuid4` fresh-id generation. -/
structure DB where
  users : List UserRec
  nextId : Nat
deriving DecidableEq, Repr

/-- The result dict of `create_user` / `store_user` / `register_user`. -/
structure DbResult where
  status : String
  userId : Option String
  message : String
deriving DecidableEq, Repr

/-- SQL `WHERE email = ?`: a stored `NULL` e-mail never matches. -/
def emailMatches (u : UserRec) (e : String) : Bool :=
  match u.email with
  | some x => x == e
  | none => false

/-- The INSERT of `create_user`: fields via `user_data.get(...)`, password
via `user_data.get('password', '')`, id `user_<fresh>`. -/
def insertUser (db : DB) (userData : List (String × String)) : DbResult × DB :=
  let uid := "user_" ++ toString db.nextId
  let rec' : UserRec :=
    { userId := uid
    , name := dictGet userData "name"
    , email := dictGet userData "email"
    , phone := dictGet userData "phone"
    , address := dictGet userData "address"
    , passwordHash := (dictGet userData "password").getD "" }
  ({ status := "success", userId := some uid, message := "User created successfully" },
   { users := db.users ++ [rec'], nextId := db.nextId + 1 })

/-- `SimpleDB.create_user` / `MemoryAgent.store_user`: the duplicate-email
check runs only when the record has an `email` key; otherwise the row is
inserted (with a `NULL` e-mail) unconditionally. -/
def create_user (db : DB) (userData : List (String × String)) : DbResult × DB :=
  match dictGet userData "email" with
  | some e =>
    if db.users.any (fun u => emailMatches u e) then
      ({ status := "error", userId := none, message := "Email already exists" }, db)
    else insertUser db userData
  | none => insertUser db userData

/-! ## The action agent (`action_agent.py`) -/

/-- The result dict of `verify_profile_completeness`.  In the source the
complete branch omits the `missing_fields` key and the caller reads it
with `result.get("missing_fields", [])`; that default is inlined here. -/
structure VerifyResult where
  status : String
  missingFields : List String
  message : String
deriving DecidableEq, Repr

/-- `ActionAgent.verify_profile_completeness`: required fields absent from
the profile or mapped to a falsy (empty) value, in required-field order. -/
def verify_profile_completeness (p : List (String × String)) : VerifyResult :=
  let missing := requiredFields.filter (fun f => (dictGet p f).getD "" == "")
  if missing.isEmpty then
    { status := "complete", missingFields := [],
      message := "All required fields are present" }
  else
    { status := "incomplete", missingFields := missing,
      message := "Missing fields: " ++ String.intercalate ", " missing }

/-- `ActionAgent.register_user`: re-validate the submitted record, then
store it. -/
def register_user (db : DB) (userData : List (String × String)) : DbResult × DB :=
  let missing := requiredFields.filter (fun f => (dictGet userData f).getD "" == "")
  if missing.isEmpty then create_user db userData
  else
    ({ status := "error", userId := none,
       message := "Missing required fields: " ++ String.intercalate ", " missing }, db)

/-- `ActionAgent.generate_response`: deterministic template per status
string.  There is no `"failed"` branch; that status value falls through
to the final generic prompt.  (`missing_fields = missing_fields or []` is
inlined by taking the list directly.) -/
def generate_response (status : String) (profile : List (String × String))
    (missingFields : List String) : String :=
  if status == "gathering_info" then
    if !missingFields.isEmpty then
      "I still need your " ++ String.intercalate ", " missingFields ++
      " to complete your registration. Could you please provide this information?"
    else
      "Thank you for the information. Is there anything else you'd like to add before we complete your registration?"
  else if status == "password_needed" then
    "Please provide a password for your account to complete the registration."
  else if status == "confirming" then
    let profileStr := String.intercalate "\n"
      ((profile.filter (fun kv => kv.1 != "password")).map
        (fun kv => kv.1 ++ ": " ++ kv.2))
    "Here's the information you've provided:\n" ++ profileStr ++
    "\n\nIs this correct? Say yes to complete your registration."
  else if status == "completed" then
    "Great! Your registration has been successfully completed. Your user ID is " ++
    (dictGet profile "user_id").getD "" ++ "."
  else if status == "error" then
    "I'm sorry, but there was a problem with your registration. Please try again."
  else
    "How can I help you with your registration today?"

/-! ## Graph nodes (`OrchestrationAgent`) -/

/-- Merge extracted entities into the state, the password routed outside
the profile, in the dict insertion order name, email, phone, address,
password. -/
def mergeEntities (s : RegState) (e : Entities) : RegState :=
  let s := match e.name with
    | some v => { s with profile := dictSet s.profile "name" v }
    | none => s
  let s := match e.email with
    | some v => { s with profile := dictSet s.profile "email" v }
    | none => s
  let s := match e.phone with
    | some v => { s with profile := dictSet s.profile "phone" v }
    | none => s
  let s := match e.address with
    | some v => { s with profile := dictSet s.profile "address" v }
    | none => s
  match e.password with
  | some v => { s with password := v }
  | none => s

/-- `OrchestrationAgent._initialize_state`: extract from the current
message, merge, set status GATHERING_INFO unconditionally, and build the
greeting message. -/
def initNodeFn (s : RegState) : RegState :=
  let e := extract_entities s.currentMessage
  let s' := mergeEntities s e
  let base := "I'll help you register. "
  let base :=
    match e.name with
    | some n => base ++ "I've recorded your name as " ++ n ++ ". "
    | none => base
  let msg :=
    if e.count > 0 then
      base ++ "What else would you like to provide? We need your name, email, phone, and address to complete registration."
    else
      base ++ "Please provide your name, email, phone, and address to complete registration."
  { s' with status := .gatheringInfo, systemMessage := msg }

/-- `OrchestrationAgent._identify_missing_info`: recompute
`missing_fields`; on a complete profile move to CONFIRMING when the
password is non-empty, else PASSWORD_NEEDED; otherwise keep the status
and report the missing fields. -/
def identifyMissingInfo (s : RegState) : RegState :=
  let result := verify_profile_completeness s.profile
  let s := { s with missingFields := result.missingFields }
  if result.status == "complete" then
    if s.password ≠ "" then
      { s with status := .confirming,
               systemMessage := "All information provided. Ready to complete registration." }
    else
      { s with status := .passwordNeeded,
               systemMessage := "Please provide a password to complete your registration." }
  else
    { s with systemMessage := result.message }

/-- `OrchestrationAgent._process_user_input`: extract from the current
message and merge. -/
def processUserInput (s : RegState) : RegState :=
  mergeEntities s (extract_entities s.currentMessage)

/-- `OrchestrationAgent._register_user`: submit `{**profile, password}`;
on success set COMPLETED and record the new id in `profile["user_id"]`,
on error set FAILED; either way the store's message becomes the system
message. -/
def registerUserNode (s : RegState) (db : DB) : RegState × DB :=
  let userData := dictSet s.profile "password" s.password
  let rd := register_user db userData
  if rd.1.status == "success" then
    ({ s with status := .completed
            , profile := dictSet s.profile "user_id" (rd.1.userId.getD "")
            , systemMessage := rd.1.message }, rd.2)
  else
    ({ s with status := .failed, systemMessage := rd.1.message }, rd.2)

/-- `OrchestrationAgent._generate_response`: render from
`(status.value, profile, missing_fields)`.  (The session-table snapshot
write has no further observable effect and is not modelled.) -/
def generateResponseNode (s : RegState) : RegState :=
  { s with systemMessage := generate_response s.status.value s.profile s.missingFields }

/-- `OrchestrationAgent._should_collect_info`. -/
def shouldCollectInfo (s : RegState) : Bool := s.missingFields.length > 0

/-- `OrchestrationAgent._should_register`: stored `missing_fields` empty,
non-empty password, status CONFIRMING, and the lower-cased message
containing `"yes"` or `"correct"` as a substring. -/
def shouldRegister (s : RegState) : Bool :=
  decide (s.missingFields.length = 0) && decide (0 < s.password.length) &&
  decide (s.status = RegStatus.confirming) &&
  (pyIn "yes" (pyLower s.currentMessage) || pyIn "correct" (pyLower s.currentMessage))

/-- The `has_required_fields` local of `RegistrationSystem._should_register`
(`registration.py`): every required field present in the profile with a
truthy value. -/
def hasRequiredFields (s : RegState) : Bool :=
  requiredFields.all (fun f =>
    match dictGet s.profile f with
    | some v => !(v == "")
    | none => false)

/-- `RegistrationSystem._should_register` (`registration.py`): identical
to the orchestration agent's gate except that the required fields are
re-checked directly on the profile instead of through the stored
`missing_fields`. -/
def shouldRegisterReg (s : RegState) : Bool :=
  hasRequiredFields s &&
  decide (0 < s.password.length) &&
  decide (s.status = RegStatus.confirming) &&
  (pyIn "yes" (pyLower s.currentMessage) || pyIn "correct" (pyLower s.currentMessage))

/-! ## The workflow graph -/

/-- The five graph nodes of `_build_registration_graph`. -/
inductive GNode where
  | initNode
  | identifyNode
  | processNode
  | registerNode
  | respondNode
deriving DecidableEq, Repr

/-- One super-step: run the node's function and pick the successor along
the declared edges; `none` is the END edge (taken from the response node
exactly on the terminal statuses COMPLETED and FAILED). -/
def stepNode : GNode → RegState → DB → RegState × DB × Option GNode
  | .initNode, s, db => (initNodeFn s, db, some .identifyNode)
  | .identifyNode, s, db => (identifyMissingInfo s, db, some .processNode)
  | .processNode, s, db =>
    let s' := processUserInput s
    (s', db,
      some (if shouldRegister s' then .registerNode
            else if shouldCollectInfo s' then .identifyNode
            else .respondNode))
  | .registerNode, s, db =>
    let r := registerUserNode s db
    (r.1, r.2, some .respondNode)
  | .respondNode, s, db =>
    let s' := generateResponseNode s
    (s', db,
      if s'.status = RegStatus.completed ∨ s'.status = RegStatus.failed then none
      else some .processNode)

/-- Run the graph for at most `fuel` super-steps from a node.  The Boolean
records whether END was reached; running out of fuel models LangGraph's
recursion limit being hit (`GraphRecursionError`), with all node updates
up to that point retained. -/
def runGraphE : Nat → GNode → RegState → DB → RegState × DB × Bool
  | 0, _, s, db => (s, db, false)
  | Nat.succ fuel, n, s, db =>
    match stepNode n s db with
    | (s', db', none) => (s', db', true)
    | (s', db', some n') => runGraphE fuel n' s' db'

/-- LangGraph's default recursion limit. -/
def recursionLimit : Nat := 25

/-- One turn of `OrchestrationAgent.process_message` on a session state:
set `current_message`, run the graph from the entry point; if the
recursion limit was hit the caught error replaces the system message with
the first fallback text, and a run that returned the state unchanged
replaces it with the second. -/
def processTurn (s : RegState) (msg : String) (db : DB) : RegState × DB :=
  let s0 := { s with currentMessage := msg }
  let r := runGraphE recursionLimit .initNode s0 db
  if r.2.2 = false then
    ({ r.1 with systemMessage :=
        "I've received your message: '" ++ msg ++ "'. Let me help you with your registration." },
     r.2.1)
  else if r.1 = s0 then
    ({ r.1 with systemMessage :=
        "I've received your message: '" ++ msg ++ "'. Please provide your registration information (name, email, phone, address)." },
     r.2.1)
  else (r.1, r.2.1)

/-! ## Sessions and the conversation endpoint -/

/-- The orchestrator: its in-memory `sessions` dict, the store, and a
counter modelling fresh session-id generation. -/
structure OrchSystem where
  sessions : List (String × RegState)
  db : DB
  nextSession : Nat
deriving DecidableEq, Repr

/-- The fresh state installed by `create_session`. -/
def freshSessionState (sid : String) : RegState :=
  { sessionId := sid
  , profile := []
  , status := .started
  , missingFields := []
  , password := ""
  , currentMessage := ""
  , systemMessage := "Hello! I'm here to help you with your registration. What would you like to do today?" }

/-- `OrchestrationAgent.create_session`: mint a fresh id and install an
empty session state. -/
def createSession (sys : OrchSystem) : String × OrchSystem :=
  let sid := "session_" ++ toString sys.nextSession
  (sid,
   { sys with sessions := dictSet sys.sessions sid (freshSessionState sid)
            , nextSession := sys.nextSession + 1 })

/-- The response dict of `process_message`: `user_id` present exactly on a
COMPLETED status whose profile carries one, `missing_fields` present
exactly when non-empty. -/
structure Response where
  sessionId : String
  message : String
  status : String
  userId : Option String
  missingFields : Option (List String)
deriving DecidableEq, Repr

/-- Build the response dict from the final state. -/
def mkResponse (sid : String) (s : RegState) : Response :=
  { sessionId := sid
  , message := s.systemMessage
  , status := s.status.value
  , userId := if s.status = RegStatus.completed then dictGet s.profile "user_id" else none
  , missingFields := if s.missingFields.isEmpty then none else some s.missingFields }

/-- `OrchestrationAgent.process_message`: an unknown session id silently
creates a fresh session (discarding the caller's id), the turn runs on
the selected state, and the session map is updated with the result. -/
def process_message (sys : OrchSystem) (sid : String) (msg : String) :
    Response × OrchSystem :=
  match dictGet sys.sessions sid with
  | some s =>
    let r := processTurn s msg sys.db
    (mkResponse sid r.1,
     { sys with sessions := dictSet sys.sessions sid r.1, db := r.2 })
  | none =>
    let c := createSession sys
    let r := processTurn (freshSessionState c.1) msg c.2.db
    (mkResponse c.1 r.1,
     { c.2 with sessions := dictSet c.2.sessions c.1 r.1, db := r.2 })

/-! ## Concrete scenario states used by the claims -/

/-- A complete profile with distinct field values. -/
def c2State : RegState :=
  { sessionId := "session_0"
  , profile := [("name", "Jane Doe"), ("email", "jane@x.com"),
                ("phone", "5551234567"), ("address", "12 Elm Street")]
  , status := .confirming
  , missingFields := []
  , password := "Secret123"
  , currentMessage := "ok"
  , systemMessage := "" }

/-- An empty store. -/
def c2Db : DB := { users := [], nextId := 0 }

/-- The same confirming session about to receive `"yes please"`. -/
def c2WitState : RegState := { c2State with currentMessage := "yes please" }

/-- A session that committed successfully: COMPLETED, `user_id` recorded. -/
def c3State : RegState :=
  { sessionId := "session_0"
  , profile := [("name", "yes"), ("email", "jane@x.com"),
                ("phone", "5551234567"), ("address", "12 Elm Street"),
                ("user_id", "user_0")]
  , status := .completed
  , missingFields := []
  , password := "Secret123"
  , currentMessage := "yes"
  , systemMessage := "Great! Your registration has been successfully completed. Your user ID is user_0." }

/-- The store after that commit: one row holding the committed e-mail. -/
def c3Db : DB :=
  { users := [{ userId := "user_0", name := some "yes",
                email := some "jane@x.com", phone := some "5551234567",
                address := some "12 Elm Street", passwordHash := "Secret123" }]
  , nextId := 1 }

/-- A parametric complete profile for the commit-idempotence claim. -/
def c4Profile (nv ev pv av : String) : List (String × String) :=
  [("name", nv), ("email", ev), ("phone", pv), ("address", av)]

/-- A parametric confirming session ready to commit. -/
def c4State (nv ev pv av pwd : String) : RegState :=
  { sessionId := "session_0"
  , profile := c4Profile nv ev pv av
  , status := .confirming
  , missingFields := []
  , password := pwd
  , currentMessage := ""
  , systemMessage := "" }

/-- An empty store for the idempotence witness. -/
def c4WitDb : DB := { users := [], nextId := 0 }

/-- A complete profile with a password, still marked GATHERING_INFO. -/
def c5WitState : RegState :=
  { sessionId := "s"
  , profile := [("name", "Jane"), ("email", "j@x.com"),
                ("phone", "5551234567"), ("address", "12 Elm St")]
  , status := .gatheringInfo
  , missingFields := ["name", "email", "phone", "address"]
  , password := "pw1234"
  , currentMessage := ""
  , systemMessage := "" }

/-- A session missing name and e-mail, no password. -/
def c7State : RegState :=
  { sessionId := "session_0"
  , profile := [("phone", "5551234567"), ("address", "12 Elm Street")]
  , status := .gatheringInfo
  , missingFields := ["name", "email"]
  , password := ""
  , currentMessage := ""
  , systemMessage := "" }

/-- An empty store for the no-op-message scenario. -/
def c7Db : DB := { users := [], nextId := 0 }

/-- A different confirming session whose e-mail collides with a stored
user. -/
def c8State : RegState :=
  { sessionId := "session_1"
  , profile := [("name", "John Roe"), ("email", "jane@x.com"),
                ("phone", "5559876543"), ("address", "34 Oak Street")]
  , status := .confirming
  , missingFields := []
  , password := "Passw0rd"
  , currentMessage := ""
  , systemMessage := "" }

/-- A store already holding the colliding e-mail. -/
def c8Db : DB :=
  { users := [{ userId := "user_0", name := some "Jane Doe",
                email := some "jane@x.com", phone := some "5551234567",
                address := some "12 Elm Street", passwordHash := "Secret123" }]
  , nextId := 1 }

/-- A system with no sessions at all. -/
def c9WitSys : OrchSystem :=
  { sessions := [], db := { users := [], nextId := 0 }, nextSession := 0 }

/-! ### Intermediate states of the committing and re-confirming turns
(proof artifacts for the commit-idempotence claim) -/

/-- The id minted for the next `create_user` call. -/
def c4Uid (db : DB) : String := "user_" ++ toString db.nextId

/-- After the entry node of the committing turn: `"yes"` extracted as a
name, status reset to GATHERING_INFO. -/
def c4S1 (ev pv av pwd : String) : RegState :=
  { sessionId := "session_0"
  , profile := [("name", "yes"), ("email", ev), ("phone", pv), ("address", av)]
  , status := .gatheringInfo
  , missingFields := []
  , password := pwd
  , currentMessage := "yes"
  , systemMessage := "I'll help you register. I've recorded your name as yes. What else would you like to provide? We need your name, email, phone, and address to complete registration." }

/-- After re-validation: complete profile and password, so CONFIRMING. -/
def c4S2 (ev pv av pwd : String) : RegState :=
  { c4S1 ev pv av pwd with
      status := .confirming
    , systemMessage := "All information provided. Ready to complete registration." }

/-- After the successful commit: COMPLETED with the new `user_id`. -/
def c4S4 (ev pv av pwd uid : String) : RegState :=
  { c4S2 ev pv av pwd with
      status := .completed
    , profile := [("name", "yes"), ("email", ev), ("phone", pv), ("address", av), ("user_id", uid)]
    , systemMessage := "User created successfully" }

/-- After rendering: the COMPLETED template with the new id. -/
def c4S5 (ev pv av pwd uid : String) : RegState :=
  { c4S4 ev pv av pwd uid with
      systemMessage := "Great! Your registration has been successfully completed. Your user ID is " ++ uid ++ "." }

/-- The row inserted by the successful commit. -/
def c4Rec (ev pv av pwd uid : String) : UserRec :=
  { userId := uid, name := some "yes", email := some ev, phone := some pv
  , address := some av, passwordHash := pwd }

/-- After the entry node of the re-confirming turn: status reset again. -/
def c4T1 (ev pv av pwd uid : String) : RegState :=
  { c4S5 ev pv av pwd uid with
      status := .gatheringInfo
    , systemMessage := "I'll help you register. I've recorded your name as yes. What else would you like to provide? We need your name, email, phone, and address to complete registration." }

/-- Re-validation of the re-confirming turn: CONFIRMING again. -/
def c4T2 (ev pv av pwd uid : String) : RegState :=
  { c4T1 ev pv av pwd uid with
      status := .confirming
    , systemMessage := "All information provided. Ready to complete registration." }

/-- The re-attempted commit hits the duplicate e-mail: FAILED. -/
def c4T4 (ev pv av pwd uid : String) : RegState :=
  { c4T2 ev pv av pwd uid with
      status := .failed
    , systemMessage := "Email already exists" }

/-- After rendering the FAILED state: the generic fall-through prompt. -/
def c4T5 (ev pv av pwd uid : String) : RegState :=
  { c4T4 ev pv av pwd uid with
      systemMessage := "How can I help you with your registration today?" }

/-! ## Helper lemmas -/

/-- A non-empty string has positive length. -/
theorem strLenPos (s : String) (h : s ≠ "") : 0 < s.length := by
  cases s with
  | mk data =>
    cases data with
    | nil => exact absurd rfl h
    | cons c t => simp [String.length]

/-- Setting a key makes it readable. -/
theorem dictGet_dictSet_self {α : Type} (d : List (String × α)) (k : String)
    (v : α) : dictGet (dictSet d k v) k = some v := by
  induction d with
  | nil => simp [dictSet, dictGet]
  | cons kv t ih =>
    obtain ⟨k', v'⟩ := kv
    by_cases h : k' = k
    · subst h
      simp [dictSet, dictGet]
    · have hb : (k' == k) = false := beq_eq_false_iff_ne.mpr h
      simp [dictSet, dictGet, hb, ih]

/-- Setting one key leaves other keys unchanged. -/
theorem dictGet_dictSet_ne {α : Type} (d : List (String × α)) (k k' : String)
    (v : α) (h : k ≠ k') : dictGet (dictSet d k v) k' = dictGet d k' := by
  induction d with
  | nil =>
    have hb : (k == k') = false := beq_eq_false_iff_ne.mpr h
    simp [dictSet, dictGet, hb]
  | cons kv t ih =>
    obtain ⟨k₁, v₁⟩ := kv
    by_cases h1 : k₁ = k
    · subst h1
      have hb : (k₁ == k') = false := beq_eq_false_iff_ne.mpr h
      simp [dictSet, dictGet, hb]
    · have hb : (k₁ == k) = false := beq_eq_false_iff_ne.mpr h1
      simp [dictSet, dictGet, hb, ih]

/-- The falsy test used by the validator, in terms of the lookup result. -/
theorem getD_empty_iff (o : Option String) :
    ((o.getD "" == "")) = decide (o = none ∨ o = some "") := by
  cases o with
  | none => simp
  | some v =>
    by_cases h : v = "" <;> simp [h]

/-- The validator's missing list, in closed form. -/
theorem verify_missing_eq (p : List (String × String)) :
    (verify_profile_completeness p).missingFields
      = requiredFields.filter (fun f => (dictGet p f).getD "" == "") := by
  unfold verify_profile_completeness
  by_cases h : (requiredFields.filter (fun f => (dictGet p f).getD "" == "")).isEmpty
  · simp only [h, if_true]
    exact (List.isEmpty_iff.mp h).symm
  · simp [h]

/-- A graph run that takes a step. -/
theorem runGraphE_next {g : GNode} {s : RegState} {db : DB} {s' : RegState}
    {db' : DB} {g' : GNode} (h : stepNode g s db = (s', db', some g')) (n : Nat) :
    runGraphE (n + 1) g s db = runGraphE n g' s' db' := by
  simp [runGraphE, h]

/-- A graph run that reaches END. -/
theorem runGraphE_done {g : GNode} {s : RegState} {db : DB} {s' : RegState}
    {db' : DB} (h : stepNode g s db = (s', db', none)) (n : Nat) :
    runGraphE (n + 1) g s db = (s', db', true) := by
  simp [runGraphE, h]

/-- Extraction of the bare message `"yes"`: the bare-leading-name pattern
takes it as a name; nothing else matches. -/
theorem extractYes : extract_entities "yes" = ⟨some "yes", none, none, none, none⟩ := rfl

/-- A turn whose graph run reaches END with a changed state returns the
run's result unmodified. -/
theorem processTurn_of_run (s : RegState) (msg : String) (db : DB) (s' : RegState)
    (db' : DB)
    (hrun : runGraphE recursionLimit .initNode { s with currentMessage := msg } db
      = (s', db', true))
    (hne : s' ≠ { s with currentMessage := msg }) :
    processTurn s msg db = (s', db') := by
  simp only [processTurn]
  rw [hrun]
  simp [hne]

/-! ## C1 — the profile validator -/

/-- Claim C1: for every profile, the validator's missing-field list is
exactly the fixed required list `[name, email, phone, address]` filtered
to the fields absent from the profile or mapped to the empty value — so
its order is the fixed required-field order, independent of the profile's
insertion order — and the verdict is `"complete"` exactly when that list
is empty. -/
theorem validator_missing_fields (p : List (String × String)) :
    (verify_profile_completeness p).missingFields
      = requiredFields.filter (fun f => decide (dictGet p f = none ∨ dictGet p f = some ""))
    ∧ ((verify_profile_completeness p).status = "complete"
        ↔ (verify_profile_completeness p).missingFields = []) := by
  have heq : (verify_profile_completeness p).missingFields
      = requiredFields.filter (fun f => decide (dictGet p f = none ∨ dictGet p f = some "")) := by
    rw [verify_missing_eq]
    exact List.filter_congr (fun f _ => getD_empty_iff (dictGet p f))
  refine ⟨heq, ?_⟩
  unfold verify_profile_completeness
  by_cases h : (requiredFields.filter (fun f => (dictGet p f).getD "" == "")).isEmpty
  · simp [h]
  · constructor
    · intro hc
      simp [h] at hc
    · intro hc
      simp only [h, if_false] at hc
      exact absurd (List.isEmpty_iff.mpr hc) (by simp [h])

/-- Claim C1 witness: a profile given in scrambled insertion order with an
empty phone yields exactly `[phone]`, and the verdict is not complete. -/
theorem validator_missing_fields_witness :
    (verify_profile_completeness
        [("address", "12 Elm St"), ("name", "Jane"), ("phone", ""), ("email", "j@x.com")]).missingFields
      = ["phone"]
    ∧ (verify_profile_completeness
        [("address", "12 Elm St"), ("name", "Jane"), ("phone", ""), ("email", "j@x.com")]).status
      ≠ "complete" := by
  refine ⟨?_, ?_⟩
  · rw [(validator_missing_fields
      [("address", "12 Elm St"), ("name", "Jane"), ("phone", ""), ("email", "j@x.com")]).1]
    decide
  · intro hc
    have h2 := (validator_missing_fields
      [("address", "12 Elm St"), ("name", "Jane"), ("phone", ""), ("email", "j@x.com")]).2.mp hc
    rw [(validator_missing_fields
      [("address", "12 Elm St"), ("name", "Jane"), ("phone", ""), ("email", "j@x.com")]).1] at h2
    revert h2
    decide

/-- The validator's verdict characterization (helper). -/
theorem verify_complete_iff (p : List (String × String)) :
    (verify_profile_completeness p).status = "complete"
      ↔ (verify_profile_completeness p).missingFields = [] := by
  unfold verify_profile_completeness
  by_cases h : (requiredFields.filter (fun f => (dictGet p f).getD "" == "")).isEmpty
  · simp [h]
  · have hne : requiredFields.filter (fun f => (dictGet p f).getD "" == "") ≠ [] :=
      fun hh => absurd (List.isEmpty_iff.mpr hh) (by simp [h])
    simp [h, hne]

/-! ## C5 — CONFIRMING only with a complete profile and a password -/

/-- Claim C5: in a turn the status is newly set to CONFIRMING only by
`_identify_missing_info`, and only when the freshly recomputed
missing-field list is empty and the session password is non-empty; with
an empty password a complete profile yields PASSWORD_NEEDED instead. -/
theorem confirming_only_when_ready (s : RegState)
    (h : s.status ≠ RegStatus.confirming) :
    ((identifyMissingInfo s).status = RegStatus.confirming →
      (identifyMissingInfo s).missingFields = [] ∧ s.password ≠ "")
    ∧ ((verify_profile_completeness s.profile).missingFields = [] → s.password = "" →
      (identifyMissingInfo s).status = RegStatus.passwordNeeded) := by
  constructor
  · intro hconf
    by_cases hc : (verify_profile_completeness s.profile).status = "complete"
    · by_cases hp : s.password = ""
      · exfalso
        unfold identifyMissingInfo at hconf
        simp [hc, hp] at hconf
      · refine ⟨?_, hp⟩
        unfold identifyMissingInfo
        simp [hc, hp, (verify_complete_iff s.profile).mp hc]
    · exfalso
      unfold identifyMissingInfo at hconf
      have hb : ((verify_profile_completeness s.profile).status == "complete") = false :=
        beq_eq_false_iff_ne.mpr hc
      simp [hb] at hconf
      exact h hconf
  · intro hm hp
    have hc : (verify_profile_completeness s.profile).status = "complete" :=
      (verify_complete_iff s.profile).mpr hm
    unfold identifyMissingInfo
    simp [hc, hp]

/-- Claim C5 witness: a complete profile with password `"pw1234"` marked
GATHERING_INFO satisfies the hypothesis, and the first conclusion applies. -/
theorem confirming_only_when_ready_witness :
    c5WitState.status ≠ RegStatus.confirming
    ∧ ((identifyMissingInfo c5WitState).status = RegStatus.confirming →
        (identifyMissingInfo c5WitState).missingFields = [] ∧ c5WitState.password ≠ "") :=
  ⟨by decide, (confirming_only_when_ready c5WitState (by decide)).1⟩

/-! ## C9 — unknown session ids silently create a fresh session -/

/-- Claim C9: for a session id absent from the session map,
`process_message` does not fail: it mints a fresh id, processes the
message against a brand-new empty session, stores the result under the
fresh id, and the response carries the fresh id instead of the caller's. -/
theorem unknown_session_creates_fresh (sys : OrchSystem) (sid msg : String)
    (h : dictGet sys.sessions sid = none) :
    (process_message sys sid msg).1.sessionId = "session_" ++ toString sys.nextSession
    ∧ dictGet (process_message sys sid msg).2.sessions
        ("session_" ++ toString sys.nextSession)
      = some (processTurn (freshSessionState ("session_" ++ toString sys.nextSession)) msg sys.db).1
    ∧ (process_message sys sid msg).1
      = mkResponse ("session_" ++ toString sys.nextSession)
          (processTurn (freshSessionState ("session_" ++ toString sys.nextSession)) msg sys.db).1 := by
  unfold process_message
  rw [h]
  simp [createSession, mkResponse, dictGet_dictSet_self]

/-- Claim C9 witness: an empty system and the unknown id `"missing"`. -/
theorem unknown_session_creates_fresh_witness :
    dictGet c9WitSys.sessions "missing" = none
    ∧ (process_message c9WitSys "missing" "").1.sessionId
        = "session_" ++ toString c9WitSys.nextSession :=
  ⟨rfl, (unknown_session_creates_fresh c9WitSys "missing" "" rfl).1⟩

/-! ## C10 — the e-mail uniqueness check is skipped without an `email` key -/

/-- Claim C10: a record without an `email` key skips the duplicate check
entirely and is inserted with a null e-mail, reported as success; two
such records therefore coexist in the table. -/
theorem email_check_skipped (db : DB) (d1 d2 : List (String × String))
    (h1 : dictGet d1 "email" = none) (h2 : dictGet d2 "email" = none) :
    (create_user db d1).1.status = "success"
    ∧ (create_user db d1).2.users = db.users ++
        [{ userId := "user_" ++ toString db.nextId
         , name := dictGet d1 "name"
         , email := none
         , phone := dictGet d1 "phone"
         , address := dictGet d1 "address"
         , passwordHash := (dictGet d1 "password").getD "" }]
    ∧ (create_user (create_user db d1).2 d2).1.status = "success"
    ∧ (create_user (create_user db d1).2 d2).2.users.length = db.users.length + 2 := by
  refine ⟨?_, ?_, ?_, ?_⟩ <;>
    simp [create_user, insertUser, h1, h2]

/-- Claim C10 witness: two e-mail-less records inserted into an empty
table, the first insertion succeeding. -/
theorem email_check_skipped_witness :
    dictGet [("name", "A")] "email" = (none : Option String)
    ∧ dictGet [("name", "B")] "email" = (none : Option String)
    ∧ (create_user { users := [], nextId := 0 } [("name", "A")]).1.status = "success" :=
  ⟨rfl, rfl,
    (email_check_skipped { users := [], nextId := 0 } [("name", "A")] [("name", "B")] rfl rfl).1⟩

/-! ## C2 — the confirmation tokens -/

/-- Claim C2 counterexample: a CONFIRMING session with all four required
fields non-empty and a non-empty password receives `"ok"` — one of the
claimed confirmation tokens — yet neither registration gate fires and the
turn submits nothing to the store. -/
theorem confirmation_tokens_counterexample :
    c2State.status = RegStatus.confirming
    ∧ c2State.missingFields = []
    ∧ hasRequiredFields c2State = true
    ∧ c2State.password ≠ ""
    ∧ pyIn "ok" (pyLower c2State.currentMessage) = true
    ∧ shouldRegister c2State = false
    ∧ shouldRegisterReg c2State = false
    ∧ (processTurn c2State "ok" c2Db).2.users = [] := by
  refine ⟨rfl, rfl, rfl, by decide, rfl, rfl, rfl, rfl⟩

/-- Claim C2 as amended: with status CONFIRMING, no missing fields (resp.
all four required fields truthy) and a non-empty password, the commit
gate fires exactly when the lower-cased message contains `"yes"` or
`"correct"` as a substring; `"confirm"` and `"ok"` are not detection
tokens (a message like `"yes I confirm"` still matches, via `"yes"`). -/
theorem confirmation_tokens (s : RegState)
    (hst : s.status = RegStatus.confirming) (hm : s.missingFields = [])
    (hp : s.password ≠ "") (hf : hasRequiredFields s = true) :
    (shouldRegister s = true
      ↔ (pyIn "yes" (pyLower s.currentMessage) = true
          ∨ pyIn "correct" (pyLower s.currentMessage) = true))
    ∧ (shouldRegisterReg s = true
      ↔ (pyIn "yes" (pyLower s.currentMessage) = true
          ∨ pyIn "correct" (pyLower s.currentMessage) = true)) := by
  have hpl : decide (0 < s.password.length) = true :=
    decide_eq_true (strLenPos s.password hp)
  constructor
  · simp [shouldRegister, hst, hm, hpl]
  · simp [shouldRegisterReg, hst, hf, hpl]

/-- Claim C2 witness: the message `"yes please"` (which extracts no
entities) on the confirming session satisfies every hypothesis and fires
the orchestration gate. -/
theorem confirmation_tokens_witness :
    c2WitState.status = RegStatus.confirming
    ∧ c2WitState.missingFields = []
    ∧ c2WitState.password ≠ ""
    ∧ hasRequiredFields c2WitState = true
    ∧ shouldRegister c2WitState = true :=
  ⟨rfl, rfl, by decide, rfl,
    (confirmation_tokens c2WitState rfl rfl (by decide) rfl).1.mpr (Or.inl rfl)⟩

/-! ## C3 — terminal statuses are not preserved on re-entry -/

/-- Claim C3 counterexample: a COMPLETED session that receives one more
confirmation message does not keep its terminal status — the turn ends
FAILED (the re-run pipeline re-attempts the commit, which hits the
duplicate-e-mail error). -/
theorem terminal_reentry_counterexample :
    c3State.status = RegStatus.completed
    ∧ (processTurn c3State "yes" c3Db).1.status = RegStatus.failed := by
  exact ⟨rfl, rfl⟩

/-- Claim C3 as amended: COMPLETED and FAILED are terminal only for a
single graph run (the END edge); re-entry for a further message is not
short-circuited: the pipeline's entry node unconditionally overwrites the
status with GATHERING_INFO, after which the turn recomputes a fresh
status, so a terminal session's status always changes at the first step
of the next turn. -/
theorem terminal_reentry (s : RegState) (db : DB)
    (h : s.status = RegStatus.completed ∨ s.status = RegStatus.failed) :
    (stepNode GNode.initNode s db).1.status = RegStatus.gatheringInfo
    ∧ (stepNode GNode.initNode s db).1.status ≠ s.status := by
  have hg : (stepNode GNode.initNode s db).1.status = RegStatus.gatheringInfo := by
    simp [stepNode, initNodeFn]
  refine ⟨hg, ?_⟩
  rw [hg]
  rcases h with h | h <;> simp [h]

/-- Claim C3 amended witness: the COMPLETED session from the
counterexample scenario. -/
theorem terminal_reentry_witness :
    (c3State.status = RegStatus.completed ∨ c3State.status = RegStatus.failed)
    ∧ (stepNode GNode.initNode c3State c3Db).1.status = RegStatus.gatheringInfo :=
  ⟨Or.inl rfl, (terminal_reentry c3State c3Db (Or.inl rfl)).1⟩

/-! ## C7 — the message `"just checking in"` -/

/-- Claim C7 counterexample: `"just checking in"` is not entity-free — the
bare-leading-name heuristic extracts the whole message as a name, and on
a session whose missing fields are `[name, email]` the turn shrinks the
missing list to `[email]` instead of leaving it unchanged. -/
theorem checking_in_counterexample :
    (extract_entities "just checking in").name = some "just checking in"
    ∧ c7State.missingFields = ["name", "email"]
    ∧ (processTurn c7State "just checking in" c7Db).1.missingFields = ["email"] := by
  exact ⟨rfl, rfl, rfl⟩

/-- Claim C7 as amended: processing `"just checking in"` on a session with
missing required fields completes without failure and, when further
fields stay missing, leaves the status at GATHERING_INFO — but the
extractor does find an entity: the bare-leading-name heuristic stores the
whole message as the name, so `name` drops out of the recomputed
missing-field list. -/
theorem checking_in_turn :
    (processTurn c7State "just checking in" c7Db).1.status = RegStatus.gatheringInfo
    ∧ (processTurn c7State "just checking in" c7Db).1.missingFields = ["email"]
    ∧ dictGet (processTurn c7State "just checking in" c7Db).1.profile "name"
        = some "just checking in"
    ∧ (processTurn c7State "just checking in" c7Db).2 = c7Db := by
  exact ⟨rfl, rfl, rfl, rfl⟩

/-! ## C8 — duplicate e-mail: FAILED status but a generic reply -/

/-- Claim C8 counterexample: when the commit fails on a duplicate e-mail
the session does end FAILED, but the rendered reply is the renderer's
generic fall-through prompt, not a message carrying the duplicate-e-mail
reason. -/
theorem duplicate_email_reply_counterexample :
    (processTurn c8State "yes" c8Db).1.status = RegStatus.failed
    ∧ (processTurn c8State "yes" c8Db).1.systemMessage
        = "How can I help you with your registration today?"
    ∧ pyIn "Email already exists" (processTurn c8State "yes" c8Db).1.systemMessage
        = false := by
  exact ⟨rfl, rfl, rfl⟩

/-- Claim C8 as amended: a duplicate-e-mail commit failure drives the
session to FAILED and the register node does store the reason
`"Email already exists"` in the system message, but the response renderer
has no `"failed"` branch and is never handed the stored reason, so the
render step overwrites it and the turn's reply is the generic
`"How can I help you with your registration today?"`. -/
theorem duplicate_email_reply :
    (∀ (p : List (String × String)) (m : List String),
      generate_response "failed" p m = "How can I help you with your registration today?")
    ∧ (registerUserNode
        (processUserInput (identifyMissingInfo (initNodeFn
          { c8State with currentMessage := "yes" }))) c8Db).1.systemMessage
        = "Email already exists"
    ∧ (registerUserNode
        (processUserInput (identifyMissingInfo (initNodeFn
          { c8State with currentMessage := "yes" }))) c8Db).1.status
        = RegStatus.failed
    ∧ (processTurn c8State "yes" c8Db).1.status = RegStatus.failed
    ∧ (processTurn c8State "yes" c8Db).1.systemMessage
        = "How can I help you with your registration today?" := by
  refine ⟨fun p m => rfl, rfl, rfl, rfl, rfl⟩

/-! ## C6 — the standalone-password heuristic -/

/-- Claim C6: when the whole stripped message is password-shaped (6–20
characters from `[A-Za-z0-9!@#$%^&*()]`) and the extractor found no name,
e-mail, phone, address or labelled password in it, the whole stripped
message becomes the password; and on any message where some other entity
was extracted the heuristic never fires — the password is exactly
whatever the labelled-password patterns produced. -/
theorem standalone_password (text : String)
    (h1 : extractName text = none) (h2 : extractEmail text = none)
    (h3 : extractPhone text = none) (h4 : extractAddress text = none)
    (h5 : extractPassword text = none)
    (h6 : isPwShaped (pyStrip text) = true) :
    (extract_entities text).password = some (pyStrip text)
    ∧ ∀ t : String,
        ((extract_entities t).name.isSome = true
          ∨ (extract_entities t).email.isSome = true
          ∨ (extract_entities t).phone.isSome = true
          ∨ (extract_entities t).address.isSome = true) →
        (extract_entities t).password = extractPassword t := by
  constructor
  · unfold extract_entities
    simp [h1, h2, h3, h4, h5, h6]
  · intro t ht
    unfold extract_entities at ht ⊢
    cases hpw : extractPassword t with
    | some p => simp [hpw]
    | none =>
      simp only [hpw]
      rcases ht with h | h | h | h <;>
        · obtain ⟨v, hv⟩ := Option.isSome_iff_exists.mp (by simpa using h)
          simp [hv]

/-- Claim C6 witness: the message `"abc123"` is password-shaped and
yields no other entity, so the whole message becomes the password. -/
theorem standalone_password_witness :
    extractName "abc123" = none
    ∧ extractEmail "abc123" = none
    ∧ extractPhone "abc123" = none
    ∧ extractAddress "abc123" = none
    ∧ extractPassword "abc123" = none
    ∧ isPwShaped (pyStrip "abc123") = true
    ∧ (extract_entities "abc123").password = some (pyStrip "abc123") :=
  ⟨rfl, rfl, rfl, rfl, rfl, rfl,
    (standalone_password "abc123" rfl rfl rfl rfl rfl rfl).1⟩

/-! ## C4 — re-confirming a COMPLETED session creates no second record -/

/-- Claim C4: from a CONFIRMING session whose four required fields and
password are non-empty and whose e-mail is not yet stored, the
confirmation `"yes"` commits exactly one `UserRecord`; processing the
same confirmation again immediately afterwards inserts no second record
into the user table (the re-attempted commit hits the duplicate-e-mail
check) and leaves the `user_id` recorded in the profile unchanged. -/
theorem commit_idempotent (nv ev pv av pwd : String) (db : DB)
    (_hn : nv ≠ "") (he : ev ≠ "") (hp : pv ≠ "") (ha : av ≠ "") (hw : pwd ≠ "")
    (hdb : db.users.any (fun u => emailMatches u ev) = false) :
    (processTurn (c4State nv ev pv av pwd) "yes" db).1.status = RegStatus.completed
    ∧ (processTurn (c4State nv ev pv av pwd) "yes" db).2.users
        = db.users ++ [c4Rec ev pv av pwd (c4Uid db)]
    ∧ dictGet (processTurn (c4State nv ev pv av pwd) "yes" db).1.profile "user_id"
        = some (c4Uid db)
    ∧ (processTurn (processTurn (c4State nv ev pv av pwd) "yes" db).1 "yes"
         (processTurn (c4State nv ev pv av pwd) "yes" db).2).2.users
        = (processTurn (c4State nv ev pv av pwd) "yes" db).2.users
    ∧ dictGet (processTurn (processTurn (c4State nv ev pv av pwd) "yes" db).1 "yes"
         (processTurn (c4State nv ev pv av pwd) "yes" db).2).1.profile "user_id"
        = dictGet (processTurn (c4State nv ev pv av pwd) "yes" db).1.profile "user_id" := by
  have hevB : (ev == "") = false := beq_eq_false_iff_ne.mpr he
  have hpvB : (pv == "") = false := beq_eq_false_iff_ne.mpr hp
  have havB : (av == "") = false := beq_eq_false_iff_ne.mpr ha
  have hpwl : decide (0 < pwd.length) = true := decide_eq_true (strLenPos pwd hw)
  have hyes : (pyIn "yes" (pyLower "yes") || pyIn "correct" (pyLower "yes")) = true := rfl
  have e1 : stepNode .initNode { c4State nv ev pv av pwd with currentMessage := "yes" } db
      = (c4S1 ev pv av pwd, db, some .identifyNode) := rfl
  have e2 : stepNode .identifyNode (c4S1 ev pv av pwd) db
      = (c4S2 ev pv av pwd, db, some .processNode) := by
    simp [stepNode, identifyMissingInfo, verify_profile_completeness, requiredFields,
          dictGet, c4S1, c4S2, hevB, hpvB, havB, hw]
  have e3 : stepNode .processNode (c4S2 ev pv av pwd) db
      = (c4S2 ev pv av pwd, db, some .registerNode) := by
    simp [stepNode, processUserInput, mergeEntities, extractYes, c4S2, c4S1, dictSet,
          shouldRegister, shouldCollectInfo, hpwl, hyes]
  have e4 : stepNode .registerNode (c4S2 ev pv av pwd) db
      = (c4S4 ev pv av pwd (c4Uid db),
         { users := db.users ++ [c4Rec ev pv av pwd (c4Uid db)], nextId := db.nextId + 1 },
         some .respondNode) := by
    simp [stepNode, registerUserNode, register_user, create_user, insertUser,
          dictSet, dictGet, requiredFields, c4S2, c4S1, c4S4, c4Rec, c4Uid,
          hevB, hpvB, havB, hdb]
  have e5 : stepNode .respondNode (c4S4 ev pv av pwd (c4Uid db))
      ({ users := db.users ++ [c4Rec ev pv av pwd (c4Uid db)], nextId := db.nextId + 1 })
    = (c4S5 ev pv av pwd (c4Uid db),
       { users := db.users ++ [c4Rec ev pv av pwd (c4Uid db)], nextId := db.nextId + 1 },
       none) := rfl
  have run1 : runGraphE recursionLimit .initNode
      { c4State nv ev pv av pwd with currentMessage := "yes" } db
      = (c4S5 ev pv av pwd (c4Uid db),
         { users := db.users ++ [c4Rec ev pv av pwd (c4Uid db)], nextId := db.nextId + 1 },
         true) :=
    calc runGraphE recursionLimit .initNode
          { c4State nv ev pv av pwd with currentMessage := "yes" } db
        = runGraphE 24 .identifyNode (c4S1 ev pv av pwd) db := runGraphE_next e1 24
      _ = runGraphE 23 .processNode (c4S2 ev pv av pwd) db := runGraphE_next e2 23
      _ = runGraphE 22 .registerNode (c4S2 ev pv av pwd) db := runGraphE_next e3 22
      _ = runGraphE 21 .respondNode (c4S4 ev pv av pwd (c4Uid db))
            ({ users := db.users ++ [c4Rec ev pv av pwd (c4Uid db)], nextId := db.nextId + 1 }) :=
          runGraphE_next e4 21
      _ = (c4S5 ev pv av pwd (c4Uid db),
           { users := db.users ++ [c4Rec ev pv av pwd (c4Uid db)], nextId := db.nextId + 1 },
           true) := runGraphE_done e5 20
  have hne1 : c4S5 ev pv av pwd (c4Uid db)
      ≠ { c4State nv ev pv av pwd with currentMessage := "yes" } := by
    intro hcontra
    have hst := congrArg RegState.status hcontra
    simp [c4S5, c4S4, c4S2, c4S1, c4State] at hst
  have T1 : processTurn (c4State nv ev pv av pwd) "yes" db
      = (c4S5 ev pv av pwd (c4Uid db),
         { users := db.users ++ [c4Rec ev pv av pwd (c4Uid db)], nextId := db.nextId + 1 }) :=
    processTurn_of_run _ _ _ _ _ run1 hne1
  have f1 : stepNode .initNode
      { c4S5 ev pv av pwd (c4Uid db) with currentMessage := "yes" }
      ({ users := db.users ++ [c4Rec ev pv av pwd (c4Uid db)], nextId := db.nextId + 1 })
      = (c4T1 ev pv av pwd (c4Uid db),
         { users := db.users ++ [c4Rec ev pv av pwd (c4Uid db)], nextId := db.nextId + 1 },
         some .identifyNode) := rfl
  have f2 : stepNode .identifyNode (c4T1 ev pv av pwd (c4Uid db))
      ({ users := db.users ++ [c4Rec ev pv av pwd (c4Uid db)], nextId := db.nextId + 1 })
      = (c4T2 ev pv av pwd (c4Uid db),
         { users := db.users ++ [c4Rec ev pv av pwd (c4Uid db)], nextId := db.nextId + 1 },
         some .processNode) := by
    simp [stepNode, identifyMissingInfo, verify_profile_completeness, requiredFields,
          dictGet, c4T1, c4S5, c4S4, c4S2, c4S1, c4T2, hevB, hpvB, havB, hw]
  have f3 : stepNode .processNode (c4T2 ev pv av pwd (c4Uid db))
      ({ users := db.users ++ [c4Rec ev pv av pwd (c4Uid db)], nextId := db.nextId + 1 })
      = (c4T2 ev pv av pwd (c4Uid db),
         { users := db.users ++ [c4Rec ev pv av pwd (c4Uid db)], nextId := db.nextId + 1 },
         some .registerNode) := by
    simp [stepNode, processUserInput, mergeEntities, extractYes,
          c4T2, c4T1, c4S5, c4S4, c4S2, c4S1, dictSet,
          shouldRegister, shouldCollectInfo, hpwl, hyes]
  have f4 : stepNode .registerNode (c4T2 ev pv av pwd (c4Uid db))
      ({ users := db.users ++ [c4Rec ev pv av pwd (c4Uid db)], nextId := db.nextId + 1 })
      = (c4T4 ev pv av pwd (c4Uid db),
         { users := db.users ++ [c4Rec ev pv av pwd (c4Uid db)], nextId := db.nextId + 1 },
         some .respondNode) := by
    simp [stepNode, registerUserNode, register_user, create_user, insertUser,
          dictSet, dictGet, requiredFields, c4T2, c4T1, c4S5, c4S4, c4S2, c4S1, c4T4,
          c4Rec, c4Uid, emailMatches, hevB, hpvB, havB]
  have f5 : stepNode .respondNode (c4T4 ev pv av pwd (c4Uid db))
      ({ users := db.users ++ [c4Rec ev pv av pwd (c4Uid db)], nextId := db.nextId + 1 })
      = (c4T5 ev pv av pwd (c4Uid db),
         { users := db.users ++ [c4Rec ev pv av pwd (c4Uid db)], nextId := db.nextId + 1 },
         none) := rfl
  have run2 : runGraphE recursionLimit .initNode
      { c4S5 ev pv av pwd (c4Uid db) with currentMessage := "yes" }
      ({ users := db.users ++ [c4Rec ev pv av pwd (c4Uid db)], nextId := db.nextId + 1 })
      = (c4T5 ev pv av pwd (c4Uid db),
         { users := db.users ++ [c4Rec ev pv av pwd (c4Uid db)], nextId := db.nextId + 1 },
         true) :=
    calc runGraphE recursionLimit .initNode
          { c4S5 ev pv av pwd (c4Uid db) with currentMessage := "yes" }
          ({ users := db.users ++ [c4Rec ev pv av pwd (c4Uid db)], nextId := db.nextId + 1 })
        = runGraphE 24 .identifyNode (c4T1 ev pv av pwd (c4Uid db))
            ({ users := db.users ++ [c4Rec ev pv av pwd (c4Uid db)], nextId := db.nextId + 1 }) :=
          runGraphE_next f1 24
      _ = runGraphE 23 .processNode (c4T2 ev pv av pwd (c4Uid db))
            ({ users := db.users ++ [c4Rec ev pv av pwd (c4Uid db)], nextId := db.nextId + 1 }) :=
          runGraphE_next f2 23
      _ = runGraphE 22 .registerNode (c4T2 ev pv av pwd (c4Uid db))
            ({ users := db.users ++ [c4Rec ev pv av pwd (c4Uid db)], nextId := db.nextId + 1 }) :=
          runGraphE_next f3 22
      _ = runGraphE 21 .respondNode (c4T4 ev pv av pwd (c4Uid db))
            ({ users := db.users ++ [c4Rec ev pv av pwd (c4Uid db)], nextId := db.nextId + 1 }) :=
          runGraphE_next f4 21
      _ = (c4T5 ev pv av pwd (c4Uid db),
           { users := db.users ++ [c4Rec ev pv av pwd (c4Uid db)], nextId := db.nextId + 1 },
           true) := runGraphE_done f5 20
  have hne2 : c4T5 ev pv av pwd (c4Uid db)
      ≠ { c4S5 ev pv av pwd (c4Uid db) with currentMessage := "yes" } := by
    intro hcontra
    have hst := congrArg RegState.status hcontra
    simp [c4T5, c4T4, c4T2, c4T1, c4S5, c4S4, c4S2, c4S1] at hst
  have T2 : processTurn (c4S5 ev pv av pwd (c4Uid db)) "yes"
      ({ users := db.users ++ [c4Rec ev pv av pwd (c4Uid db)], nextId := db.nextId + 1 })
      = (c4T5 ev pv av pwd (c4Uid db),
         { users := db.users ++ [c4Rec ev pv av pwd (c4Uid db)], nextId := db.nextId + 1 }) :=
    processTurn_of_run _ _ _ _ _ run2 hne2
  simp only [T1]
  simp only [T2]
  simp [c4S5, c4S4, c4S2, c4S1, c4T5, c4T4, c4T2, c4T1, dictGet]

/-- Claim C4 witness: committing Jane Doe's profile into an empty store
and re-confirming. -/
theorem commit_idempotent_witness :
    ("Jane Doe" : String) ≠ ""
    ∧ ("jane@x.com" : String) ≠ ""
    ∧ ("5551234567" : String) ≠ ""
    ∧ ("12 Elm Street" : String) ≠ ""
    ∧ ("Secret123" : String) ≠ ""
    ∧ c4WitDb.users.any (fun u => emailMatches u "jane@x.com") = false
    ∧ (processTurn (c4State "Jane Doe" "jane@x.com" "5551234567" "12 Elm Street" "Secret123")
        "yes" c4WitDb).1.status = RegStatus.completed :=
  ⟨by decide, by decide, by decide, by decide, by decide, rfl,
   (commit_idempotent "Jane Doe" "jane@x.com" "5551234567" "12 Elm Street" "Secret123" c4WitDb
     (by decide) (by decide) (by decide) (by decide) (by decide) rfl).1⟩
